import Mathlib

/-!
Verification development for the TeamMahodara online-payment flow.

The repository's CORE consists of two Deno edge functions and one client
orchestration function:
  * `supabase/functions/create-cashfree-order/index.ts` — the Order Request
    Handler (modelled here by `createOrderHandler`);
  * the payment webhook edge function — the Payment Webhook Handler
    (modelled here by `webhookHandler`);
  * `src/components/Planning.js` `handlePayOnline` — the Contribution Client
    Flow (modelled here by `handlePayOnline`).

JavaScript values flowing through these handlers are modelled by a small
JSON value type `Json`; JS-specific semantics that the code relies on
(truthiness, property access throwing a TypeError on `null`/`undefined`,
strict equality with a string literal, `String.prototype.trim`,
`String.prototype.match` on the fixed regex `^order_(\d+)_`) are each given
an explicit executable definition.  `undefined` is collapsed into
`Json.null`: in every expression of these handlers the two behave
identically (both are falsy, both throw on property access, both are `===`
to none of the string sentinels compared against).
-/

/-- JSON values (the result of `JSON.parse` / `req.json()` / `apiResponse.json()`). -/
inductive Json where
  | null : Json
  | bool : Bool → Json
  | num : Rat → Json
  | str : String → Json
  | arr : List Json → Json
  | obj : List (String × Json) → Json

/-- JS plain property access `j.k`: throws a TypeError (`Except.error`) when the
receiver is `null`/`undefined`; yields `undefined` (collapsed into `Json.null`)
on primitives and on objects lacking the key. -/
def jsField (j : Json) (k : String) : Except Unit Json :=
  match j with
  | .null => .error ()
  | .obj fs => .ok ((fs.lookup k).getD .null)
  | _ => .ok .null

/-- JS optional-chained property access `j?.k`: like `jsField` but yields
`undefined` instead of throwing when the receiver is `null`/`undefined`. -/
def jsFieldOpt (j : Json) (k : String) : Json :=
  match j with
  | .null => .null
  | .obj fs => (fs.lookup k).getD .null
  | _ => .null

/-- JS truthiness of a JSON value (`!j` is `!truthy j`).  Empty strings, `0`,
`false` and `null`/`undefined` are falsy; every array and object is truthy. -/
def truthy : Json → Bool
  | .null => false
  | .bool b => b
  | .num n => n != 0
  | .str s => s != ""
  | .arr _ => true
  | .obj _ => true

/-- JS strict equality `j === lit` against a string literal: true exactly when
`j` is a string with the same characters. -/
def strictEqStr (j : Json) (lit : String) : Bool :=
  match j with
  | .str s => s == lit
  | _ => false

/-- JS template-literal stringification of a JSON value (only the cases the
handlers can reach matter; arrays join their elements in JS, but no handler
branch in this repository stringifies an array, so that case is left as `""`). -/
def jsToString : Json → String
  | .str s => s
  | .num n => toString n
  | .bool b => cond b "true" "false"
  | .null => "null"
  | .arr _ => ""
  | .obj _ => "[object Object]"

/-- `String.prototype.trim` modelled on the character list. -/
def jsTrim (s : String) : String :=
  String.mk (((s.data.dropWhile Char.isWhitespace).reverse.dropWhile Char.isWhitespace).reverse)

/-- The regex `^order_(\d+)_` of the webhook, on character lists: the input must
start with `order_`, then a non-empty maximal run of digits, then `_`; the
capture group (the digit run) is returned.  Backtracking inside `\d+` cannot
produce a match the maximal run misses, because shrinking the run only moves
the required `_` onto a digit. -/
def matchOrderChars (cs : List Char) : Option (List Char) :=
  if cs.take 6 = "order_".data then
    let rest := cs.drop 6
    let ds := rest.takeWhile Char.isDigit
    if ds ≠ [] ∧ (rest.dropWhile Char.isDigit).head? = some '_' then some ds else none
  else none

/-- `orderId.match(/^order_(\d+)_/)` returning the capture group. -/
def matchOrderId (s : String) : Option String :=
  (matchOrderChars s.data).map String.mk

/-- Numeric value of a digit string, as `parseInt(·, 10)` computes it on a
string of decimal digits. -/
def digitsToNat (cs : List Char) : Nat :=
  cs.foldl (fun acc c => acc * 10 + (c.toNat - 48)) 0

/-- A ledger row of the `contributions` table. -/
structure Contribution where
  id : Nat
  contributor : String
  amount : Rat
  method : String
  status : String
deriving DecidableEq, Repr

/-- `supabase.from('contributions').update({status:'success'}).eq('id', cid)`:
every row whose `id` equals `cid` gets `status := "success"`. -/
def updateStatusSuccess (ledger : List Contribution) (cid : Nat) : List Contribution :=
  ledger.map (fun r => if r.id = cid then { r with status := "success" } else r)

/-- Observable outcome of one webhook invocation that returned a response:
HTTP status, response body text, whether the store update was attempted, and
the resulting ledger. -/
structure WebhookResult where
  status : Nat
  body : String
  updateAttempted : Bool
  ledger : List Contribution
deriving DecidableEq, Repr

/-- The Payment Webhook Handler (the `serve` callback of the webhook edge
function), as a function of the current ledger, a store-failure oracle for the
single `update` call, and the outcome of `JSON.parse` on the request body
(`Except.error` = unparseable JSON).  The result is `Except.error` when the
handler throws an uncaught TypeError (then the platform's default error
handler, not this code, answers the request):
  * `payload.type` on line 32 throws when the parsed payload is JSON `null`;
  * `orderId.match(...)` on line 52 throws when `order_id` is a truthy
    non-string value.
All other paths return a response, mirroring the source line by line. -/
def webhookHandler (ledger : List Contribution) (storeFails : Bool)
    (parsed : Except Unit Json) : Except Unit WebhookResult :=
  match parsed with
  | .error _ => .ok ⟨200, "Invalid JSON", false, ledger⟩
  | .ok payload =>
    match jsField payload "type" with
    | .error _ => .error ()
    | .ok ty =>
      -- from here `payload` is not null, so plain access `payload.data`
      -- cannot throw and coincides with `jsFieldOpt payload "data"`
      if strictEqStr ty "WEBHOOK" && truthy (jsFieldOpt (jsFieldOpt payload "data") "test_object") then
        .ok ⟨200, "\x7b\"status\":\"acknowledged\"\x7d", false, ledger⟩
      else
        let orderId := jsFieldOpt (jsFieldOpt (jsFieldOpt payload "data") "order") "order_id"
        let paymentStatus := jsFieldOpt (jsFieldOpt (jsFieldOpt payload "data") "payment") "payment_status"
        if !truthy orderId || !truthy paymentStatus then
          .ok ⟨200, "Invalid webhook structure", false, ledger⟩
        else
          match orderId with
          | .str s =>
            match matchOrderId s with
            | none => .ok ⟨200, "Invalid order_id format", false, ledger⟩
            | some digits =>
              let contributionId := digitsToNat digits.data
              if strictEqStr paymentStatus "SUCCESS" then
                if storeFails then
                  .ok ⟨200, "Database update failed", true, ledger⟩
                else
                  .ok ⟨200, "Webhook processed", true, updateStatusSuccess ledger contributionId⟩
              else
                .ok ⟨200, "Webhook processed", false, ledger⟩
          | _ => .error ()

/-- HTTP status observed by the webhook's caller: the handler's own status
when it returns, and 500 (the `std/http` `serve` default `onError` response)
when the handler throws. -/
def webhookStatus (r : Except Unit WebhookResult) : Nat :=
  match r with
  | .ok w => w.status
  | .error _ => 500

/-- An HTTP JSON response, as built by the `jsonResponse` helper of the order
function. -/
structure HttpResponse where
  status : Nat
  body : Json

/-- `jsonResponse(data, status)` of create-cashfree-order/index.ts. -/
def jsonResponse (data : Json) (status : Nat) : HttpResponse :=
  ⟨status, data⟩

/-- `{error: msg}` — the error body shape of every non-200 response of the
order function. -/
def errObj (msg : String) : Json :=
  Json.obj [("error", Json.str msg)]

/-- The four environment variables read by the order function; `none` models
an unset variable. -/
structure OrderConfig where
  appId : Option String
  secretKey : Option String
  cashfreeApiUrl : Option String
  appUrl : Option String

/-- JS falsiness of `Deno.env.get(...)`: unset (`undefined`) or the empty
string. -/
def envFalsy (v : Option String) : Bool :=
  match v with
  | none => true
  | some s => s == ""

/-- `!appId || !secretKey || !cashfreeApiUrl || !appUrl`. -/
def cfgMissing (c : OrderConfig) : Bool :=
  envFalsy c.appId || envFalsy c.secretKey || envFalsy c.cashfreeApiUrl || envFalsy c.appUrl

/-- The gateway order id: `` `order_${contribution_id}_${Date.now()}` ``. -/
def mkOrderId (contribution_id : String) (now : Nat) : String :=
  "order_" ++ contribution_id ++ "_" ++ toString now

/-- The JSON body sent to the gateway's order-creation endpoint (the `fetch`
body of create-cashfree-order/index.ts, lines 63-78). -/
structure GatewayRequest where
  order_id : String
  order_amount : Rat
  order_currency : String
  customer_id : String
  customer_name : String
  customer_phone : String
  return_url : String
deriving DecidableEq, Repr

/-- A gateway response already put through `apiResponse.json()`: HTTP status
plus parsed JSON body. -/
structure GatewayResponse where
  status : Nat
  body : Json

/-- `apiResponse.ok`: status in the inclusive range 200-299. -/
def respOk (status : Nat) : Bool :=
  200 ≤ status && status ≤ 299

/-- The Order Request Handler (the `serve` callback of
create-cashfree-order/index.ts), as a function of the configuration, the
outcome of `req.json()` (`Except.error` = body not parseable), the current
epoch-millisecond clock, and a gateway oracle giving the outcome of
`fetch` + `apiResponse.json()` (`Except.error` = the fetch rejected or the
upstream body was not parseable JSON, both of which throw and land in the
global catch).  The second component records the gateway request that was
sent, `none` when no gateway call was attempted.  Every throwing path of the
source is inside the global `try`, so the model is total: the catch returns
the generic 500 response. -/
def createOrderHandler (config : OrderConfig) (reqBody : Except Unit Json)
    (now : Nat) (gateway : Except Unit GatewayResponse) :
    HttpResponse × Option GatewayRequest :=
  if cfgMissing config then
    (jsonResponse (errObj "Server configuration error.") 500, none)
  else
    match reqBody with
    | .error _ => (jsonResponse (errObj "Invalid JSON in request body.") 400, none)
    | .ok body =>
      match body with
      | .null =>
        -- `const { amount, contributor, contribution_id } = body` throws a
        -- TypeError on a JSON-null body; the global catch answers
        (jsonResponse (errObj "An unexpected internal server error occurred.") 500, none)
      | _ =>
        match jsFieldOpt body "amount" with
        | .num amount =>
          if amount ≤ 0 then
            (jsonResponse (errObj "Invalid or missing \"amount\". It must be a positive number.") 400, none)
          else
            match jsFieldOpt body "contributor" with
            | .str contributor =>
              if jsTrim contributor == "" then
                (jsonResponse (errObj "Invalid or missing \"contributor\". It must be a non-empty string.") 400, none)
              else
                match jsFieldOpt body "contribution_id" with
                | .str contribution_id =>
                  if jsTrim contribution_id == "" then
                    (jsonResponse (errObj "Invalid or missing \"contribution_id\". It must be a non-empty string.") 400, none)
                  else
                    let orderId := mkOrderId contribution_id now
                    let gwReq : GatewayRequest :=
                      { order_id := orderId
                        order_amount := amount
                        order_currency := "INR"
                        customer_id := "user_" ++ contribution_id
                        customer_name := contributor
                        customer_phone := "9999999999"
                        return_url := (config.appUrl.getD "") ++ "/payment-status?order_id=\x7border_id\x7d" }
                    match gateway with
                    | .error _ =>
                      (jsonResponse (errObj "An unexpected internal server error occurred.") 500, some gwReq)
                    | .ok resp =>
                      if respOk resp.status then
                        (jsonResponse resp.body 200, some gwReq)
                      else
                        match jsField resp.body "message" with
                        | .error _ =>
                          -- `responseData.message` throws on a JSON-null
                          -- upstream body; the global catch answers
                          (jsonResponse (errObj "An unexpected internal server error occurred.") 500, some gwReq)
                        | .ok msgJ =>
                          let errorMessage :=
                            if truthy msgJ then jsToString msgJ
                            else "Cashfree API returned status " ++ toString resp.status
                          (jsonResponse (errObj ("Payment gateway error: " ++ errorMessage)) 502, some gwReq)
                | _ =>
                  (jsonResponse (errObj "Invalid or missing \"contribution_id\". It must be a non-empty string.") 400, none)
            | _ =>
              (jsonResponse (errObj "Invalid or missing \"contributor\". It must be a non-empty string.") 400, none)
        | _ =>
          (jsonResponse (errObj "Invalid or missing \"amount\". It must be a positive number.") 400, none)

/-- The parsed-error-context of a failed `supabase.functions.invoke` call in
`handlePayOnline`: the error's `context` response is absent (JS-falsy), its
body is not parseable JSON, or it parsed to a JSON value. -/
inductive FnErrCtx where
  | noContext : FnErrCtx
  | badJson : FnErrCtx
  | parsed : Json → FnErrCtx

/-- The `detailedErrorMessage` computed in `handlePayOnline` lines 309-323:
default text when the error has no context response; the supabase client
message when the context body does not parse (the inner `catch`) or is JSON
null (`errorBody.error` throws inside the `try`); otherwise
`errorBody.error || functionError.message`. -/
def detailedErrorMessage (ctx : FnErrCtx) (clientMessage : String) : String :=
  match ctx with
  | .noContext => "An unknown error occurred with the payment function."
  | .badJson => clientMessage
  | .parsed body =>
    match body with
    | .null => clientMessage
    | _ =>
      if truthy (jsFieldOpt body "error") then jsToString (jsFieldOpt body "error")
      else clientMessage

/-- A failed `supabase.functions.invoke` outcome. -/
structure FunctionError where
  ctx : FnErrCtx
  message : String

/-- The environment oracles consumed by one run of `handlePayOnline`:
the insert outcome (the new row's store-generated id, or an error), the edge
function outcome (`functionData` JSON, or a `FunctionError`), whether
`window.Cashfree` is loaded, and the checkout outcome (`some msg` when the
SDK resolves with `result.error.message = msg`). -/
structure PayEnv where
  insertResult : Except Unit Nat
  functionResult : Except FunctionError Json
  sdkLoaded : Bool
  checkoutError : Option String

/-- The body passed to `supabase.functions.invoke('create-cashfree-order', ...)`. -/
structure OrderArgs where
  amount : Rat
  contributor : String
  contribution_id : String
deriving DecidableEq, Repr

/-- Observable outcome of one `handlePayOnline` run: whether the insert was
attempted, the invoke body when the edge function was invoked (`none` = never
invoked), whether `cashfree.checkout` was reached, and the user-facing error
set by the catch (`none` = no error surfaced). -/
structure PayOutcome where
  insertAttempted : Bool
  invokedWith : Option OrderArgs
  checkoutAttempted : Bool
  errorMsg : Option String
deriving DecidableEq, Repr

/-- `handlePayOnline` of src/components/Planning.js (lines 276-360), as a
function of the form state (`validForm` is the result of `validateForm()`,
`contributor` and `amount` the form fields, with `amount` already coerced by
the unary `+`) and the environment oracles.  Each `throw` lands in the catch,
which stores the message in the component error state. -/
def handlePayOnline (validForm : Bool) (contributor : String) (amount : Rat)
    (env : PayEnv) : PayOutcome :=
  if !validForm then
    ⟨false, none, false, none⟩
  else
    match env.insertResult with
    | .error _ =>
      ⟨true, none, false, some "Could not save your contribution record. Please try again."⟩
    | .ok newId =>
      let args : OrderArgs := ⟨amount, jsTrim contributor, toString newId⟩
      match env.functionResult with
      | .error fe =>
        ⟨true, some args, false, some (detailedErrorMessage fe.ctx fe.message)⟩
      | .ok functionData =>
        if !truthy (jsFieldOpt functionData "payment_session_id") then
          ⟨true, some args, false, some "Failed to get a valid payment session from the server."⟩
        else if !env.sdkLoaded then
          ⟨true, some args, false, some "Payment SDK (Cashfree) is not loaded. Please refresh the page."⟩
        else
          match env.checkoutError with
          | some m => ⟨true, some args, true, some ("Payment Gateway Error: " ++ m)⟩
          | none => ⟨true, some args, true, none⟩

/-- The webhook payload shape delivered by the gateway for a real payment
event (spec section 6): `\x7bdata: \x7border: \x7border_id\x7d, payment:
\x7bpayment_status\x7d\x7d\x7d`. -/
def mkWebhookPayload (oid ps : String) : Json :=
  Json.obj [("data", Json.obj
    [("order", Json.obj [("order_id", Json.str oid)]),
     ("payment", Json.obj [("payment_status", Json.str ps)])])]

/-- The JSON body sent to the gateway when validation passes: order id
`order_<contribution_id>_<now>`, the amount, fixed currency `INR`, the
customer block derived from `contribution_id`/`contributor` with the
placeholder phone, and the return-URL template (create-cashfree-order
lines 63-78, with `config.appUrl` substituted). -/
def mkGatewayRequest (config : OrderConfig) (a : Rat) (c i : String) (now : Nat) :
    GatewayRequest :=
  { order_id := mkOrderId i now
    order_amount := a
    order_currency := "INR"
    customer_id := "user_" ++ i
    customer_name := c
    customer_phone := "9999999999"
    return_url := (config.appUrl.getD "") ++ "/payment-status?order_id=\x7border_id\x7d" }

/-- A fully-populated configuration, for concrete witnesses. -/
def cfg0 : OrderConfig :=
  ⟨some "app-id", some "secret", some "https://api.cashfree.com/pg/orders",
   some "https://app.example"⟩

/-- A valid request body, for concrete witnesses. -/
def fs0 : List (String × Json) :=
  [("amount", Json.num 100), ("contributor", Json.str "A"), ("contribution_id", Json.str "7")]

/-- A one-row ledger holding the pending online contribution 42, for concrete
witnesses (the end-to-end scenario of spec section 8). -/
def l0 : List Contribution := [⟨42, "Samba", 100, "online", "pending"⟩]

/-- The spec section 8 end-to-end webhook payload for contribution 42. -/
def p0 : Json := mkWebhookPayload "order_42_1700000000000" "SUCCESS"

/-- A non-2xx gateway response carrying an upstream message, for witnesses. -/
def resp0 : GatewayResponse := ⟨503, Json.obj [("message", Json.str "busy")]⟩

/-- A successful gateway response carrying a session token, for witnesses. -/
def resp1 : GatewayResponse := ⟨200, Json.obj [("payment_session_id", Json.str "sess_1")]⟩

/-- A fully-successful client-flow environment, for witnesses. -/
def env0 : PayEnv :=
  ⟨.ok 42, .ok (Json.obj [("payment_session_id", Json.str "s")]), true, none⟩

/-! ## Helper lemmas -/

theorem string_mk_data (s : String) : String.mk s.data = s := by
  cases s
  rfl

theorem string_append_assoc (a b c : String) : a ++ b ++ c = a ++ (b ++ c) :=
  congrArg String.mk (List.append_assoc a.data b.data c.data)

theorem takeWhile_digits (ds tl : List Char) (hd : ∀ c ∈ ds, c.isDigit = true) :
    (ds ++ '_' :: tl).takeWhile Char.isDigit = ds ∧
    (ds ++ '_' :: tl).dropWhile Char.isDigit = '_' :: tl := by
  induction ds with
  | nil => simp [List.takeWhile_cons, List.dropWhile_cons]
  | cons c cs ih =>
    have hc : c.isDigit = true := hd c (List.mem_cons_self c cs)
    have := ih (fun x hx => hd x (List.mem_cons_of_mem c hx))
    simp [List.takeWhile_cons, List.dropWhile_cons, hc, this.1, this.2]

theorem matchOrderChars_digits (ds tl : List Char) (hne : ds ≠ [])
    (hd : ∀ c ∈ ds, c.isDigit = true) :
    matchOrderChars ("order_".data ++ (ds ++ '_' :: tl)) = some ds := by
  have h := takeWhile_digits ds tl hd
  unfold matchOrderChars
  rw [List.take_left' (by rfl), List.drop_left' (by rfl)]
  simp [h.1, h.2, hne]

theorem matchOrderChars_nondigit (c : Char) (cs : List Char) (hc : c.isDigit = false) :
    matchOrderChars ("order_".data ++ (c :: cs)) = none := by
  unfold matchOrderChars
  rw [List.take_left' (by rfl), List.drop_left' (by rfl)]
  simp [List.takeWhile_cons, hc]

theorem matchOrderId_empty : matchOrderId "" = none := by decide

theorem jsField_of_ne_null (p : Json) (hp : p ≠ Json.null) (k : String) :
    jsField p k = .ok (jsFieldOpt p k) := by
  cases p <;> simp_all [jsField, jsFieldOpt]

theorem mem_updateStatusSuccess (l : List Contribution) (cid : Nat) (r : Contribution)
    (hr : r ∈ updateStatusSuccess l cid) (h : r.id = cid) : r.status = "success" := by
  obtain ⟨r0, _, hmap⟩ := List.mem_map.mp hr
  by_cases h0 : r0.id = cid
  · simp only [updateStatusSuccess, h0, if_pos] at hmap
    rw [← hmap]
  · simp only [h0, if_neg, not_false_iff] at hmap
    rw [← hmap] at h
    exact absurd h h0

theorem updateStatusSuccess_idem (l : List Contribution) (cid : Nat) :
    updateStatusSuccess (updateStatusSuccess l cid) cid = updateStatusSuccess l cid := by
  simp only [updateStatusSuccess, List.map_map]
  apply List.map_congr_left
  intro r _
  by_cases h : r.id = cid <;> simp [h]

/-- On a non-null payload that is not the gateway connectivity test and whose
extracted `order_id` is a non-empty string and `payment_status` is truthy, the
webhook handler behaves as the pattern-match / status-compare tail of the
source (lines 52-75). -/
theorem webhook_core (l : List Contribution) (sf : Bool) (p : Json) (hp : p ≠ Json.null)
    (htest : (strictEqStr (jsFieldOpt p "type") "WEBHOOK"
        && truthy (jsFieldOpt (jsFieldOpt p "data") "test_object")) = false)
    (s : String) (hs : s ≠ "")
    (horder : jsFieldOpt (jsFieldOpt (jsFieldOpt p "data") "order") "order_id" = Json.str s)
    (ps : Json) (hps : jsFieldOpt (jsFieldOpt (jsFieldOpt p "data") "payment") "payment_status" = ps)
    (hpst : truthy ps = true) :
    webhookHandler l sf (.ok p) =
      match matchOrderId s with
      | none => .ok ⟨200, "Invalid order_id format", false, l⟩
      | some digits =>
        if strictEqStr ps "SUCCESS" then
          if sf then .ok ⟨200, "Database update failed", true, l⟩
          else .ok ⟨200, "Webhook processed", true, updateStatusSuccess l (digitsToNat digits.data)⟩
        else .ok ⟨200, "Webhook processed", false, l⟩ := by
  have hts : truthy (Json.str s) = true := by simp [truthy, hs]
  simp only [webhookHandler, jsField_of_ne_null p hp, htest, horder, hps, hpst, hts,
    Bool.false_eq_true, if_false, Bool.not_true, Bool.or_self]

/-- On a request passing configuration and input validation, the order
handler behaves as the gateway-call tail of the source (lines 52-92). -/
theorem createOrder_valid (config : OrderConfig) (fs : List (String × Json)) (a : Rat)
    (c i : String) (now : Nat) (gw : Except Unit GatewayResponse)
    (hcfg : cfgMissing config = false)
    (hA : jsFieldOpt (Json.obj fs) "amount" = Json.num a) (hpos : 0 < a)
    (hC : jsFieldOpt (Json.obj fs) "contributor" = Json.str c) (hc : jsTrim c ≠ "")
    (hI : jsFieldOpt (Json.obj fs) "contribution_id" = Json.str i) (hi : jsTrim i ≠ "") :
    createOrderHandler config (.ok (Json.obj fs)) now gw =
      match gw with
      | .error _ => (jsonResponse (errObj "An unexpected internal server error occurred.") 500,
          some (mkGatewayRequest config a c i now))
      | .ok resp =>
        if respOk resp.status then
          (jsonResponse resp.body 200, some (mkGatewayRequest config a c i now))
        else
          match jsField resp.body "message" with
          | .error _ => (jsonResponse (errObj "An unexpected internal server error occurred.") 500,
              some (mkGatewayRequest config a c i now))
          | .ok msgJ =>
            (jsonResponse (errObj ("Payment gateway error: " ++
                (if truthy msgJ then jsToString msgJ
                 else "Cashfree API returned status " ++ toString resp.status))) 502,
              some (mkGatewayRequest config a c i now)) := by
  simp only [createOrderHandler, hcfg, Bool.false_eq_true, if_false, hA, hC, hI]
  rw [if_neg (not_le.mpr hpos), if_neg (by simpa using hc), if_neg (by simpa using hi)]
  rfl

/-! ## Claims -/

/-- C1: for every webhook payload with well-formed JSON (here: a non-null
parsed payload that is not the connectivity-test event), a present `order_id`
matching `order_<digits>_...`, and `payment_status = "SUCCESS"`, with the
store update succeeding, the handler sets every ledger row whose id equals
the extracted contribution id to `status = "success"`; delivering the
identical payload a second time returns the same ledger, so the row's status
stays `"success"` (idempotent in effect). -/
theorem claim_C1_webhook_success_idempotent (l : List Contribution) (p : Json) (s ds : String)
    (hp : p ≠ Json.null)
    (htest : (strictEqStr (jsFieldOpt p "type") "WEBHOOK"
        && truthy (jsFieldOpt (jsFieldOpt p "data") "test_object")) = false)
    (horder : jsFieldOpt (jsFieldOpt (jsFieldOpt p "data") "order") "order_id" = Json.str s)
    (hps : jsFieldOpt (jsFieldOpt (jsFieldOpt p "data") "payment") "payment_status"
        = Json.str "SUCCESS")
    (hmatch : matchOrderId s = some ds) :
    ∃ l₁,
      webhookHandler l false (.ok p) = .ok ⟨200, "Webhook processed", true, l₁⟩ ∧
      (∀ r ∈ l₁, r.id = digitsToNat ds.data → r.status = "success") ∧
      webhookHandler l₁ false (.ok p) = .ok ⟨200, "Webhook processed", true, l₁⟩ := by
  have hs : s ≠ "" := by
    intro h
    rw [h, matchOrderId_empty] at hmatch
    cases hmatch
  have hcore := webhook_core l false p hp htest s hs horder _ hps (by decide)
  rw [hmatch] at hcore
  simp only [strictEqStr, beq_self_eq_true, if_true, if_false, Bool.false_eq_true] at hcore
  refine ⟨updateStatusSuccess l (digitsToNat ds.data), hcore, ?_, ?_⟩
  · intro r hr h
    exact mem_updateStatusSuccess l _ r hr h
  · have hcore2 := webhook_core (updateStatusSuccess l (digitsToNat ds.data)) false p hp htest s hs
      horder _ hps (by decide)
    rw [hmatch] at hcore2
    simp only [strictEqStr, beq_self_eq_true, if_true, if_false, Bool.false_eq_true] at hcore2
    rw [hcore2, updateStatusSuccess_idem]

/-- C1 witness: the spec section 8 end-to-end scenario — row 42 pending,
payload `order_42_1700000000000` / `SUCCESS`. -/
theorem claim_C1_witness :
    ∃ l₁,
      webhookHandler l0 false (.ok p0) = .ok ⟨200, "Webhook processed", true, l₁⟩ ∧
      (∀ r ∈ l₁, r.id = digitsToNat "42".data → r.status = "success") ∧
      webhookHandler l₁ false (.ok p0) = .ok ⟨200, "Webhook processed", true, l₁⟩ :=
  claim_C1_webhook_success_idempotent l0 p0 "order_42_1700000000000" "42"
    (by simp [p0, mkWebhookPayload]) (by decide) rfl rfl (by decide)

/-- C2 (amended): every response the Payment Webhook Handler itself produces
has HTTP status 200 — covering unparseable JSON, test events, missing
fields, bad order_id format, store update failure and successful processing —
but for a JSON-null body, or a truthy non-string `order_id`, the handler
throws an uncaught TypeError and produces no response at all (the platform's
default error response, status 500, answers instead). -/
theorem claim_C2_amended (l : List Contribution) (sf : Bool) (parsed : Except Unit Json)
    (w : WebhookResult) (h : webhookHandler l sf parsed = .ok w) : w.status = 200 := by
  simp only [webhookHandler] at h
  repeat' split at h
  all_goals first
    | (cases h; rfl)
    | cases h

/-- C2 counterexample: the body `"null"` is well-formed JSON, yet the handler
throws (`payload.type` on `null`) and the observed HTTP status is the
platform's 500, not 200. -/
theorem claim_C2_counterexample :
    webhookHandler [] false (.ok Json.null) = .error ()
      ∧ webhookStatus (webhookHandler [] false (.ok Json.null)) = 500 := by
  constructor <;> rfl

/-- C2 witness: a concrete returned response (unparseable-JSON branch) has
status 200. -/
theorem claim_C2_witness :
    (⟨200, "Invalid JSON", false, ([] : List Contribution)⟩ : WebhookResult).status = 200 :=
  claim_C2_amended [] false (.error ()) _ rfl

/-- C3: for every contribution id consisting only of digits and every
timestamp `t`, the order identifier `order_<cid>_<t>` built by the Order
Request Handler is parsed back by the webhook's pattern to exactly the digit
string `cid`, whose numeric value (`digitsToNat`, the value `parseInt`
computes) equals the numeric value of the original contribution id. -/
theorem claim_C3_orderId_roundtrip (cid : String) (t : Nat) (h1 : cid.data ≠ [])
    (h2 : ∀ c ∈ cid.data, c.isDigit = true) :
    matchOrderId (mkOrderId cid t) = some cid ∧
    (matchOrderId (mkOrderId cid t)).map (fun ds => digitsToNat ds.data)
      = some (digitsToNat cid.data) := by
  have hdata : (mkOrderId cid t).data = "order_".data ++ (cid.data ++ '_' :: (toString t).data) := by
    simp [mkOrderId, String.data_append]
  have hm : matchOrderChars ((mkOrderId cid t).data) = some cid.data := by
    rw [hdata]
    exact matchOrderChars_digits cid.data _ h1 h2
  have hmain : matchOrderId (mkOrderId cid t) = some cid := by
    rw [matchOrderId, hm]
    simp [string_mk_data]
  exact ⟨hmain, by rw [hmain]; rfl⟩

/-- C3 witness: the round trip at contribution id `42` and timestamp
1700000000000. -/
theorem claim_C3_witness :
    matchOrderId (mkOrderId "42" 1700000000000) = some "42" ∧
    (matchOrderId (mkOrderId "42" 1700000000000)).map (fun ds => digitsToNat ds.data)
      = some (digitsToNat "42".data) :=
  claim_C3_orderId_roundtrip "42" 1700000000000 (by decide) (by decide)

/-- C4: for every webhook payload (non-null, not the test event, both fields
present and truthy) whose string `order_id` does not match
`order_<digits>_...`, the handler attempts no store update, leaves the ledger
unchanged, and responds 200 with the format-error body. -/
theorem claim_C4_format_error_no_update (l : List Contribution) (sf : Bool) (p : Json)
    (s : String) (ps : Json)
    (hp : p ≠ Json.null)
    (htest : (strictEqStr (jsFieldOpt p "type") "WEBHOOK"
        && truthy (jsFieldOpt (jsFieldOpt p "data") "test_object")) = false)
    (hs : s ≠ "")
    (horder : jsFieldOpt (jsFieldOpt (jsFieldOpt p "data") "order") "order_id" = Json.str s)
    (hps : jsFieldOpt (jsFieldOpt (jsFieldOpt p "data") "payment") "payment_status" = ps)
    (hpst : truthy ps = true)
    (hmatch : matchOrderId s = none) :
    webhookHandler l sf (.ok p) = .ok ⟨200, "Invalid order_id format", false, l⟩ := by
  rw [webhook_core l sf p hp htest s hs horder ps hps hpst, hmatch]

/-- C4 witness: the spec section 8 scenario `order_id = "bad_format"` — row
unchanged, response 200, format-error body (even with a failing store). -/
theorem claim_C4_witness :
    webhookHandler l0 true (.ok (mkWebhookPayload "bad_format" "PENDING"))
      = .ok ⟨200, "Invalid order_id format", false, l0⟩ :=
  claim_C4_format_error_no_update l0 true (mkWebhookPayload "bad_format" "PENDING")
    "bad_format" (Json.str "PENDING")
    (by simp [mkWebhookPayload]) (by decide) (by decide) rfl rfl (by decide) (by decide)

/-- C5: the Order Request Handler validates fail-fast, each failure a
distinct rejected response with no gateway call attempted, in this order:
missing configuration → 500 configuration error (regardless of the body);
unparseable body → 400; amount not a positive number → 400; contributor
empty/whitespace-only → 400; contribution_id empty/whitespace-only → 400.
In particular, every request whose amount field is a number ≤ 0 gets a
validation error and no gateway call. -/
theorem claim_C5_validation_fail_fast (config : OrderConfig) (now : Nat)
    (gw : Except Unit GatewayResponse) :
    (∀ reqBody, cfgMissing config = true →
      createOrderHandler config reqBody now gw
        = (jsonResponse (errObj "Server configuration error.") 500, none)) ∧
    (cfgMissing config = false →
      createOrderHandler config (.error ()) now gw
        = (jsonResponse (errObj "Invalid JSON in request body.") 400, none)) ∧
    (∀ fs, cfgMissing config = false →
      (∀ a : Rat, jsFieldOpt (Json.obj fs) "amount" = Json.num a → a ≤ 0) →
      createOrderHandler config (.ok (Json.obj fs)) now gw
        = (jsonResponse (errObj "Invalid or missing \"amount\". It must be a positive number.") 400,
            none)) ∧
    (∀ fs (a : Rat), cfgMissing config = false →
      jsFieldOpt (Json.obj fs) "amount" = Json.num a → 0 < a →
      (∀ s, jsFieldOpt (Json.obj fs) "contributor" = Json.str s → jsTrim s = "") →
      createOrderHandler config (.ok (Json.obj fs)) now gw
        = (jsonResponse
            (errObj "Invalid or missing \"contributor\". It must be a non-empty string.") 400,
            none)) ∧
    (∀ fs (a : Rat) c, cfgMissing config = false →
      jsFieldOpt (Json.obj fs) "amount" = Json.num a → 0 < a →
      jsFieldOpt (Json.obj fs) "contributor" = Json.str c → jsTrim c ≠ "" →
      (∀ s, jsFieldOpt (Json.obj fs) "contribution_id" = Json.str s → jsTrim s = "") →
      createOrderHandler config (.ok (Json.obj fs)) now gw
        = (jsonResponse
            (errObj "Invalid or missing \"contribution_id\". It must be a non-empty string.") 400,
            none)) := by
  refine ⟨?_, ?_, ?_, ?_, ?_⟩
  · intro reqBody hcfg
    simp [createOrderHandler, hcfg]
  · intro hcfg
    simp [createOrderHandler, hcfg]
  · intro fs hcfg hA
    simp only [createOrderHandler, hcfg, Bool.false_eq_true, if_false]
    cases hE : jsFieldOpt (Json.obj fs) "amount" with
    | num a => simp [hE, hA a hE]
    | null => simp [hE]
    | bool b => simp [hE]
    | str s => simp [hE]
    | arr xs => simp [hE]
    | obj gs => simp [hE]
  · intro fs a hcfg hA hpos hC
    simp only [createOrderHandler, hcfg, Bool.false_eq_true, if_false, hA]
    rw [if_neg (not_le.mpr hpos)]
    cases hE : jsFieldOpt (Json.obj fs) "contributor" with
    | str s => simp [hE, hC s hE]
    | null => simp [hE]
    | bool b => simp [hE]
    | num n => simp [hE]
    | arr xs => simp [hE]
    | obj gs => simp [hE]
  · intro fs a c hcfg hA hpos hC hc hI
    simp only [createOrderHandler, hcfg, Bool.false_eq_true, if_false, hA, hC]
    rw [if_neg (not_le.mpr hpos)]
    rw [if_neg (by simpa using hc)]
    cases hE : jsFieldOpt (Json.obj fs) "contribution_id" with
    | str s => simp [hE, hI s hE]
    | null => simp [hE]
    | bool b => simp [hE]
    | num n => simp [hE]
    | arr xs => simp [hE]
    | obj gs => simp [hE]

/-- C5 witness: a request with `amount = -5` against a fully-configured
server is rejected 400 with the amount message and no gateway call. -/
theorem claim_C5_witness :
    createOrderHandler cfg0 (.ok (Json.obj [("amount", Json.num (-5))])) 0 (.error ())
      = (jsonResponse (errObj "Invalid or missing \"amount\". It must be a positive number.") 400,
          none) :=
  (claim_C5_validation_fail_fast cfg0 0 (.error ())).2.2.1 [("amount", Json.num (-5))] rfl
    (fun a ha => by injection ha with h; rw [← h]; norm_num)

/-- C6 counterexample: a validated request whose gateway responds 503 with
body JSON `null` — a non-2xx response with no upstream message available —
is answered with the generic 500 internal error, not the claimed 502 with
the status-based fallback: `responseData.message` throws on the null body
and lands in the global catch. -/
theorem claim_C6_counterexample :
    respOk 503 = false ∧
    (createOrderHandler cfg0 (.ok (Json.obj fs0)) 0
        (.ok (⟨503, Json.null⟩ : GatewayResponse))).1
      = jsonResponse (errObj "An unexpected internal server error occurred.") 500 := by
  constructor <;> rfl

/-- C6 (amended): for every request passing validation, when the gateway
responds non-2xx, the outcome splits on the upstream body.  When
`apiResponse.json()` yielded a body on which `responseData.message` can be
read (any parsed JSON value other than `null`), the handler returns 502 with
an `\x7berror\x7d` body whose message is the upstream `message` field when
that is a non-empty string, and the status-based fallback when the field is
absent.  When the body is JSON `null`, the `.message` read throws into the
global catch and the handler returns the generic 500 instead (and when the
body is not parseable JSON at all, `apiResponse.json()` itself throws, the
`Except.error` gateway-oracle case, likewise answered 500 — see C8).  In
both response classes the gateway call was made. -/
theorem claim_C6_gateway_error_502 (config : OrderConfig) (fs : List (String × Json)) (a : Rat)
    (c i : String) (now : Nat) (resp : GatewayResponse)
    (hcfg : cfgMissing config = false)
    (hA : jsFieldOpt (Json.obj fs) "amount" = Json.num a) (hpos : 0 < a)
    (hC : jsFieldOpt (Json.obj fs) "contributor" = Json.str c) (hc : jsTrim c ≠ "")
    (hI : jsFieldOpt (Json.obj fs) "contribution_id" = Json.str i) (hi : jsTrim i ≠ "")
    (hnok : respOk resp.status = false) :
    (∀ msgJ, jsField resp.body "message" = .ok msgJ →
      (createOrderHandler config (.ok (Json.obj fs)) now (.ok resp)).1.status = 502 ∧
      (∀ m, msgJ = Json.str m → m ≠ "" →
        (createOrderHandler config (.ok (Json.obj fs)) now (.ok resp)).1.body
          = errObj ("Payment gateway error: " ++ m)) ∧
      (msgJ = Json.null →
        (createOrderHandler config (.ok (Json.obj fs)) now (.ok resp)).1.body
          = errObj ("Payment gateway error: Cashfree API returned status "
              ++ toString resp.status))) ∧
    (resp.body = Json.null →
      (createOrderHandler config (.ok (Json.obj fs)) now (.ok resp)).1
        = jsonResponse (errObj "An unexpected internal server error occurred.") 500) ∧
    (createOrderHandler config (.ok (Json.obj fs)) now (.ok resp)).2
      = some (mkGatewayRequest config a c i now) := by
  have hvalid := createOrder_valid config fs a c i now (.ok resp) hcfg hA hpos hC hc hI hi
  refine ⟨?_, ?_, ?_⟩
  · intro msgJ hmsg
    have hbase : createOrderHandler config (.ok (Json.obj fs)) now (.ok resp)
        = (jsonResponse (errObj ("Payment gateway error: " ++
            (if truthy msgJ then jsToString msgJ
             else "Cashfree API returned status " ++ toString resp.status))) 502,
           some (mkGatewayRequest config a c i now)) := by
      rw [hvalid]
      simp only [hnok, Bool.false_eq_true, if_false, hmsg]
    refine ⟨by simp [hbase, jsonResponse], ?_, ?_⟩
    case _ =>
      intro m hm hne
      subst hm
      rw [hbase]
      simp only [truthy, jsToString, bne_iff_ne, ne_eq, hne, not_false_eq_true, if_true]
      rfl
    · intro hm
      subst hm
      rw [hbase]
      simp only [truthy, Bool.false_eq_true, if_false, jsonResponse, errObj,
        ← string_append_assoc]
      rfl
  · intro hnull
    have hmsgerr : jsField resp.body "message" = .error () := by rw [hnull]; rfl
    rw [hvalid]
    simp only [hnok, Bool.false_eq_true, if_false, hmsgerr]
  · rw [hvalid]
    simp only [hnok, Bool.false_eq_true, if_false]
    cases hmsg : jsField resp.body "message" with
    | error e => rfl
    | ok m => rfl

/-- C6 witness: a 503 upstream response with body message `"busy"` yields
502 with the wrapped upstream message, while a 503 response with JSON-null
body yields the generic 500. -/
theorem claim_C6_witness :
    (createOrderHandler cfg0 (.ok (Json.obj fs0)) 0 (.ok resp0)).1.status = 502 ∧
    (createOrderHandler cfg0 (.ok (Json.obj fs0)) 0 (.ok resp0)).1.body
      = errObj ("Payment gateway error: " ++ "busy") ∧
    (createOrderHandler cfg0 (.ok (Json.obj fs0)) 0
        (.ok (⟨503, Json.null⟩ : GatewayResponse))).1
      = jsonResponse (errObj "An unexpected internal server error occurred.") 500 := by
  have h := claim_C6_gateway_error_502 cfg0 fs0 100 "A" "7" 0 resp0
    rfl rfl (by norm_num) rfl (by decide) rfl (by decide) (by decide)
  have h2 := claim_C6_gateway_error_502 cfg0 fs0 100 "A" "7" 0
    (⟨503, Json.null⟩ : GatewayResponse)
    rfl rfl (by norm_num) rfl (by decide) rfl (by decide) (by decide)
  exact ⟨(h.1 (Json.str "busy") rfl).1, (h.1 (Json.str "busy") rfl).2.1 "busy" rfl (by decide),
    h2.2.1 rfl⟩

/-- C7: for every request passing validation, when the gateway responds 2xx
the handler returns 200 with the gateway's parsed body forwarded unmodified,
in particular preserving the `payment_session_id` token it contains. -/
theorem claim_C7_gateway_success_forwarded (config : OrderConfig) (fs : List (String × Json))
    (a : Rat) (c i : String) (now : Nat) (resp : GatewayResponse)
    (hcfg : cfgMissing config = false)
    (hA : jsFieldOpt (Json.obj fs) "amount" = Json.num a) (hpos : 0 < a)
    (hC : jsFieldOpt (Json.obj fs) "contributor" = Json.str c) (hc : jsTrim c ≠ "")
    (hI : jsFieldOpt (Json.obj fs) "contribution_id" = Json.str i) (hi : jsTrim i ≠ "")
    (hok : respOk resp.status = true) :
    (createOrderHandler config (.ok (Json.obj fs)) now (.ok resp)).1
      = jsonResponse resp.body 200 ∧
    (∀ tok, jsFieldOpt resp.body "payment_session_id" = Json.str tok →
      jsFieldOpt (createOrderHandler config (.ok (Json.obj fs)) now (.ok resp)).1.body
        "payment_session_id" = Json.str tok) := by
  rw [createOrder_valid config fs a c i now (.ok resp) hcfg hA hpos hC hc hI hi]
  simp only [hok, if_true]
  exact ⟨by trivial, fun tok htok => htok⟩

/-- C7 witness: a 200 upstream response with a session token is forwarded
verbatim, token included. -/
theorem claim_C7_witness :
    (createOrderHandler cfg0 (.ok (Json.obj fs0)) 0 (.ok resp1)).1
      = jsonResponse resp1.body 200 ∧
    jsFieldOpt (createOrderHandler cfg0 (.ok (Json.obj fs0)) 0 (.ok resp1)).1.body
      "payment_session_id" = Json.str "sess_1" := by
  have h := claim_C7_gateway_success_forwarded cfg0 fs0 100 "A" "7" 0 resp1
    rfl rfl (by norm_num) rfl (by decide) rfl (by decide) (by decide)
  exact ⟨h.1, h.2 "sess_1" rfl⟩

/-- C8: the Order Request Handler never answers without a structured
response — every response either has status 200 or carries an
`\x7berror: string\x7d` body — and an uncaught fault during the gateway call
(fetch rejection or unparseable upstream body) on a validated request is
converted to the generic internal-error response, HTTP 500. -/
theorem claim_C8_fault_to_500 :
    (∀ config reqBody now gw,
      (createOrderHandler config reqBody now gw).1.status = 200 ∨
      ∃ m, (createOrderHandler config reqBody now gw).1.body = errObj m) ∧
    (∀ config fs (a : Rat) c i now, cfgMissing config = false →
      jsFieldOpt (Json.obj fs) "amount" = Json.num a → 0 < a →
      jsFieldOpt (Json.obj fs) "contributor" = Json.str c → jsTrim c ≠ "" →
      jsFieldOpt (Json.obj fs) "contribution_id" = Json.str i → jsTrim i ≠ "" →
      (createOrderHandler config (.ok (Json.obj fs)) now (.error ())).1
        = jsonResponse (errObj "An unexpected internal server error occurred.") 500) := by
  constructor
  · intro config reqBody now gw
    simp only [createOrderHandler]
    repeat' split
    all_goals first
      | exact Or.inl rfl
      | exact Or.inr ⟨_, rfl⟩
  · intro config fs a c i now hcfg hA hpos hC hc hI hi
    rw [createOrder_valid config fs a c i now (.error ()) hcfg hA hpos hC hc hI hi]

/-- C8 witness: a faulting gateway call on a validated request yields the
generic 500 internal-error response. -/
theorem claim_C8_witness :
    (createOrderHandler cfg0 (.ok (Json.obj fs0)) 0 (.error ())).1
      = jsonResponse (errObj "An unexpected internal server error occurred.") 500 :=
  claim_C8_fault_to_500.2 cfg0 fs0 100 "A" "7" 0 rfl rfl (by norm_num) rfl (by decide) rfl
    (by decide)

/-- C9: in `handlePayOnline`, whenever the edge function is invoked the
pending insert was attempted and had succeeded, and the invoke body carries
that row's generated identifier (stringified); if the insert fails the edge
function is never invoked; and if the invocation fails or returns no truthy
`payment_session_id`, checkout (the redirect) is never attempted. -/
theorem claim_C9_client_flow_order (validForm : Bool) (contributor : String) (amount : Rat)
    (env : PayEnv) :
    ((handlePayOnline validForm contributor amount env).invokedWith ≠ none →
      (handlePayOnline validForm contributor amount env).insertAttempted = true ∧
      ∃ newId, env.insertResult = .ok newId ∧
        (handlePayOnline validForm contributor amount env).invokedWith
          = some ⟨amount, jsTrim contributor, toString newId⟩) ∧
    (env.insertResult = .error () →
      (handlePayOnline validForm contributor amount env).invokedWith = none) ∧
    (∀ fe, env.functionResult = .error fe →
      (handlePayOnline validForm contributor amount env).checkoutAttempted = false) ∧
    (∀ fd, env.functionResult = .ok fd →
      truthy (jsFieldOpt fd "payment_session_id") = false →
      (handlePayOnline validForm contributor amount env).checkoutAttempted = false) := by
  cases hv : validForm with
  | false => simp [handlePayOnline]
  | true =>
    cases hins : env.insertResult with
    | error e => simp [handlePayOnline, hins]
    | ok newId =>
      cases hfn : env.functionResult with
      | error fe => simp [handlePayOnline, hins, hfn]
      | ok fd =>
        cases hps : truthy (jsFieldOpt fd "payment_session_id") with
        | false => simp [handlePayOnline, hins, hfn, hps]
        | true =>
          cases hsdk : env.sdkLoaded with
          | false => simp [handlePayOnline, hins, hfn, hps, hsdk]
          | true =>
            cases hco : env.checkoutError with
            | none => simp [handlePayOnline, hins, hfn, hps, hsdk, hco]
            | some m => simp [handlePayOnline, hins, hfn, hps, hsdk, hco]

/-- C9 witness: in a fully-successful environment the flow invokes the edge
function with the inserted row's id 42 as `contribution_id`. -/
theorem claim_C9_witness :
    (handlePayOnline true "  Samba " 100 env0).insertAttempted = true ∧
    (handlePayOnline true "  Samba " 100 env0).invokedWith
      = some ⟨100, "Samba", "42"⟩ := by
  have h := (claim_C9_client_flow_order true "  Samba " 100 env0).1 (by decide)
  exact ⟨h.1, by decide⟩

/-- C10: the Order Request Handler accepts any contribution_id that is
non-empty after trimming, and sends the gateway the composite order id
`order_<cid>_<now>`; but when the id's first character is not a digit, that
order id never matches the webhook's pattern `order_<digits>_`, so a webhook
delivery for such an order (whatever the payment status) leaves the ledger
unmodified — the contribution can never be reconciled to success via the
webhook. -/
theorem claim_C10_nondigit_id_unreconcilable (cid : String) (t : Nat) (c : Char)
    (cs : List Char)
    (hcid : cid.data = c :: cs) (hc : c.isDigit = false) (hne : jsTrim cid ≠ "") :
    (∀ config now gw, cfgMissing config = false →
      (createOrderHandler config
          (.ok (Json.obj [("amount", Json.num 100), ("contributor", Json.str "A"),
            ("contribution_id", Json.str cid)])) now gw).2
        = some (mkGatewayRequest config 100 "A" cid now)) ∧
    (mkGatewayRequest (⟨some "id", some "key", some "url", some "app"⟩ : OrderConfig)
        100 "A" cid t).order_id = mkOrderId cid t ∧
    matchOrderId (mkOrderId cid t) = none ∧
    (∀ ledger sf ps, ps ≠ "" →
      webhookHandler ledger sf (.ok (mkWebhookPayload (mkOrderId cid t) ps))
        = .ok ⟨200, "Invalid order_id format", false, ledger⟩) := by
  have hdata : (mkOrderId cid t).data
      = "order_".data ++ (c :: (cs ++ '_' :: (toString t).data)) := by
    simp [mkOrderId, String.data_append, hcid]
  have hnomatch : matchOrderId (mkOrderId cid t) = none := by
    rw [matchOrderId, hdata, matchOrderChars_nondigit c _ hc]
    rfl
  have hsne : mkOrderId cid t ≠ "" := by
    intro h
    have h2 : (mkOrderId cid t).data = [] := by rw [h]
    rw [hdata] at h2
    simp at h2
  refine ⟨?_, rfl, hnomatch, ?_⟩
  · intro config now gw hcfg
    rw [createOrder_valid config
      [("amount", Json.num 100), ("contributor", Json.str "A"),
       ("contribution_id", Json.str cid)]
      100 "A" cid now gw hcfg rfl (by norm_num) rfl (by decide) rfl hne]
    cases gw with
    | error e => rfl
    | ok resp =>
      by_cases hok : respOk resp.status = true
      · simp [hok]
      · simp only [hok, Bool.false_eq_true, if_false]
        cases hmsg : jsField resp.body "message" with
        | error e => rfl
        | ok m => rfl
  · intro ledger sf ps hps
    rw [webhook_core ledger sf (mkWebhookPayload (mkOrderId cid t) ps)
      (by simp [mkWebhookPayload]) (by rfl) (mkOrderId cid t) hsne rfl (Json.str ps) rfl
      (by simp [truthy, hps]), hnomatch]

/-- C10 witness: contribution id `"abc"` is accepted, but its order id never
matches, and a SUCCESS webhook for it leaves even a matching-looking ledger
untouched. -/
theorem claim_C10_witness :
    matchOrderId (mkOrderId "abc" 1) = none ∧
    webhookHandler l0 false (.ok (mkWebhookPayload (mkOrderId "abc" 1) "SUCCESS"))
      = .ok ⟨200, "Invalid order_id format", false, l0⟩ := by
  have h := claim_C10_nondigit_id_unreconcilable "abc" 1 'a' ['b', 'c'] rfl rfl (by decide)
  exact ⟨h.2.2.1, h.2.2.2 l0 false "SUCCESS" (by decide)⟩
